import Mathlib

/-!
Verification of the clinvar-data-monitor pipeline against its specification.

The Python sources are shallowly embedded: pure computations become Lean
functions over exact rationals (`ℚ` stands in for Python floats, so the
arithmetic claims are settled in exact arithmetic), pandas DataFrames become
rectangular lists of optional-string cells, fallible code returns `Except`,
and the effectful download / packaging workflows are modelled as state-passing
functions that also emit an explicit event trace recording each network fetch,
checksum comparison, decompression and registry operation.
-/

namespace ClinVar

/-! ## Quality score (src/quality_checker.py, `calculate_quality_score`)

The score reads four report fields.  `report.get(k, 0)` defaults are not
modelled: the claims quantify over reports that carry the four fields, so the
input is a structure holding exactly those fields. -/

/-- The four report fields read by `QualityChecker.calculate_quality_score`. -/
structure ScoreInput where
  null_percentage_avg : ℚ
  conflicting_count : ℚ
  four_star_percentage : ℚ
  row_count : ℤ
deriving DecidableEq

/-- Embedding of `QualityChecker.calculate_quality_score`
(src/quality_checker.py lines 188-210), line by line. -/
def calculate_quality_score (r : ScoreInput) : ℚ :=
  -- score = 100.0; score -= min(null_pct * 0.5, 30)
  let s1 : ℚ := 100 - min (r.null_percentage_avg * (0.5 : ℚ)) 30
  -- conflict_rate = (conflicting_count / row_count) * 100 if row_count > 0 else 0
  let conflict_rate : ℚ :=
    if r.row_count > 0 then (r.conflicting_count / (r.row_count : ℚ)) * 100 else 0
  -- score -= min(conflict_rate * 2, 25)
  let s2 : ℚ := s1 - min (conflict_rate * 2) 25
  -- score += min(four_star_pct * 0.25, 25)
  let s3 : ℚ := s2 + min (r.four_star_percentage * (0.25 : ℚ)) 25
  -- if row_count < 100: score -= min((100 - row_count) * 0.2, 20)
  let s4 : ℚ :=
    if r.row_count < 100 then s3 - min ((100 - (r.row_count : ℚ)) * (0.2 : ℚ)) 20 else s3
  -- return max(0, min(100, score))
  max 0 (min 100 s4)

/-- The quality-score formula exactly as the specification's pseudocode states
it (spec §4.2, "Quality score formula"), written independently of the source
embedding so the two can be compared. -/
def spec_quality_score (r : ScoreInput) : ℚ :=
  let score0 : ℚ := 100
  let score1 := score0 - min (r.null_percentage_avg * (0.5 : ℚ)) 30
  let conflict_rate : ℚ :=
    if r.row_count > 0 then (r.conflicting_count / (r.row_count : ℚ)) * 100 else 0
  let score2 := score1 - min (conflict_rate * 2) 25
  let score3 := score2 + min (r.four_star_percentage * (0.25 : ℚ)) 25
  let score4 :=
    if r.row_count < 100 then score3 - min ((100 - (r.row_count : ℚ)) * (0.2 : ℚ)) 20
    else score3
  -- clamp(score, 0, 100)
  min 100 (max 0 score4)

/-! ## Tabular model (pandas DataFrame)

A DataFrame is a rectangular table: a list of column names and a list of
rows, each row a list of cells; a cell is `Option String`, `none` standing
for a missing value (`NaN`, detected by `pd.isnull` / `pd.isna`). -/

structure DataFrame where
  columns : List String
  rows : List (List (Option String))

/-- `df.empty` in pandas: true when any axis has length 0. -/
def DataFrame.isEmpty (df : DataFrame) : Bool :=
  df.rows.isEmpty || df.columns.isEmpty

/-- A pandas DataFrame is rectangular by construction: every row has one
cell per column. -/
abbrev Rect (df : DataFrame) : Prop :=
  ∀ r ∈ df.rows, r.length = df.columns.length

/-- `df.isnull().sum().sum()`: the number of missing cells in the whole
table. -/
def nullCells (df : DataFrame) : ℕ :=
  (df.rows.map (fun r => r.countP (fun c => c.isNone))).sum

/-- Python's `round` on a value with one fractional step: round to the
nearest integer, ties to the even neighbour (banker's rounding). -/
def roundHalfEven (x : ℚ) : ℤ :=
  let f := ⌊x⌋
  if x - f < 1/2 then f
  else if x - f > 1/2 then f + 1
  else if f % 2 = 0 then f else f + 1

/-- Python's `round(x, 2)`. -/
def round2 (x : ℚ) : ℚ :=
  (roundHalfEven (x * 100) : ℚ) / 100

/-- Embedding of `QualityChecker._calculate_null_percentage`
(src/quality_checker.py lines 64-80). -/
def _calculate_null_percentage (df : DataFrame) : ℚ :=
  if df.isEmpty then 0
  else
    let total_cells : ℕ := df.rows.length * df.columns.length
    let null_cells : ℕ := nullCells df
    if total_cells > 0 then round2 (((null_cells : ℚ) / (total_cells : ℚ)) * 100)
    else 0

/-! ## Review-status bucketing
(src/quality_checker.py, `_calculate_review_status_distribution`) -/

/-- The `extract_stars` closure (src/quality_checker.py lines 140-145):
a missing cell is `"no-review"`, otherwise the bucket is
`"{n}-star"` with `n` the number of `★` glyphs in the cell text. -/
def extract_stars (cell : Option String) : String :=
  match cell with
  | none => "no-review"
  | some s => toString (s.data.count '★') ++ "-star"

/-- The distinct values of a list (order immaterial for the claims). -/
def distinct : List String → List String
  | [] => []
  | x :: xs => if x ∈ xs then distinct xs else x :: distinct xs

/-- `pandas.Series.value_counts().to_dict()`: each distinct value paired
with its number of occurrences. -/
def value_counts (xs : List String) : List (String × ℕ) :=
  (distinct xs).map (fun v => (v, xs.count v))

/-- The bucket assigned to every row by `df["ReviewStatus"].apply(extract_stars)`,
reading the cell at column index `i`. -/
def review_buckets (df : DataFrame) (i : ℕ) : List String :=
  df.rows.map (fun r => extract_stars (r.getD i none))

/-- Embedding of `QualityChecker._calculate_review_status_distribution`
(src/quality_checker.py lines 128-148): empty mapping when the
`ReviewStatus` column is absent, otherwise the value counts of the
per-row buckets. -/
def _calculate_review_status_distribution (df : DataFrame) : List (String × ℕ) :=
  match df.columns.findIdx? (fun c => c == "ReviewStatus") with
  | none => []
  | some i => value_counts (review_buckets df i)

/-- A concrete two-by-two table with three missing cells, used as a
witness input. -/
def exDfNull : DataFrame :=
  ⟨["A", "B"], [[some "x", none], [none, none]]⟩

/-- A concrete table with a `ReviewStatus` column holding a four-glyph
cell, a missing cell and a glyph-free text cell. -/
def exDfReview : DataFrame :=
  ⟨["VariationID", "ReviewStatus"],
    [[some "1", some "★★★★"], [some "2", none], [some "3", some "criteria provided"]]⟩

/-! ## Downloader model (src/downloader.py, `ClinVarDownloader`)

The download directory is a map from filename to file content
(an association list), the network is a function from URL to the response
body (`none` = `requests.RequestException` on every attempt), and the MD5
hash and gzip decompression are abstract content-to-content functions
passed in as parameters.  Every run also returns the list of observable
events it performed, in order. -/

/-- Observable side effects of the download workflow. -/
inductive Ev where
  /-- an HTTP GET of `url` was attempted -/
  | fetch (url : String)
  /-- the recomputed hash of `file` was compared against an expected checksum -/
  | cmpChecksum (file : String)
  /-- `file` was decompressed -/
  | decompress (file : String)
deriving DecidableEq

/-- Errors raised by the downloader.  `checksumMismatch` models the
`ValueError("Checksum mismatch ...")` of `validate_checksum`
(downloader.py line 155), the condition the spec's error taxonomy names
`IntegrityError`; `requestException` models exhausting the retries
(`TransientFetchError` in the taxonomy). -/
inductive DlErr where
  | requestException
  | fileNotFound
  | checksumMismatch
  | checksumParseFailure
  | noneTypeError
deriving DecidableEq

/-- The download directory: filename to content. -/
abbrev FS := List (String × String)

/-- The trailing path component, `path.split("/")[-1]`. -/
def lastSlashComponent (cs : List Char) : List Char :=
  cs.foldl (fun acc c => if c = '/' then [] else acc ++ [c]) []

/-- The characters after the first `://`, if any. -/
def afterSchemeSep : List Char → Option (List Char)
  | [] => none
  | ':' :: '/' :: '/' :: rest => some rest
  | _ :: rest => afterSchemeSep rest

/-- `urllib.parse.urlparse(url).path` for the common URL shapes the
downloader sees: drop the scheme and authority, stop at any query or
fragment. -/
def urlPath (url : String) : List Char :=
  let rest :=
    match afterSchemeSep url.data with
    | none => url.data
    | some r => r.dropWhile (fun c => c ≠ '/')
  (rest.takeWhile (fun c => c ≠ '?')).takeWhile (fun c => c ≠ '#')

/-- Embedding of `ClinVarDownloader._get_filename_from_url`
(downloader.py lines 217-227). -/
def _get_filename_from_url (url : String) : String :=
  String.mk (lastSlashComponent (urlPath url))

/-- The `for attempt in range(max_retries)` loop body of `download_file`
(downloader.py lines 67-86).  The network is deterministic, so either the
first request succeeds or every attempt fails; with zero iterations the
loop is never entered and the function falls off the end, returning
Python `None` (`.ok none`). -/
def downloadAttempts (net : String → Option String) (url : String) :
    ℕ → Except DlErr (Option String) × List Ev
  | 0 => (.ok none, [])
  | n + 1 =>
    match net url with
    | some content => (.ok (some content), [.fetch url])
    | none =>
      if n = 0 then (.error .requestException, [.fetch url])
      else
        let r := downloadAttempts net url n
        (r.1, .fetch url :: r.2)

/-- Embedding of `ClinVarDownloader.download_file` (downloader.py lines
41-86): return the cached file untouched when it already exists,
otherwise run the retry loop and write the body on success.  The result
carries the returned path (`none` = Python `None`), the updated download
directory and the performed events. -/
def download_file (fs : FS) (net : String → Option String) (url : String)
    (max_retries : ℕ) : Except DlErr (Option String) × FS × List Ev :=
  let filename := _get_filename_from_url url
  match fs.lookup filename with
  | some _ => (.ok (some filename), fs, [])
  | none =>
    match downloadAttempts net url max_retries with
    | (.ok (some content), evs) => (.ok (some filename), (filename, content) :: fs, evs)
    | (.ok none, evs) => (.ok none, fs, evs)
    | (.error e, evs) => (.error e, fs, evs)

/-- Python `str.split()` whitespace classes (the ones occurring in
checksum sidecar files). -/
def isSpaceChar (c : Char) : Bool :=
  c = ' ' || c = '\t' || c = '\n' || c = '\r'

/-- `text.strip().split()[0]`: the first whitespace-delimited token, or
`none` when there is no token (Python would raise `IndexError`). -/
def firstToken (s : String) : Option String :=
  match s.data.dropWhile isSpaceChar with
  | [] => none
  | cs => some (String.mk (cs.takeWhile (fun c => !isSpaceChar c)))

/-- Embedding of `ClinVarDownloader.download_checksum` (downloader.py
lines 110-133). -/
def download_checksum (net : String → Option String) (checksum_url : String) :
    Except DlErr String × List Ev :=
  match net checksum_url with
  | none => (.error .requestException, [.fetch checksum_url])
  | some txt =>
    match firstToken txt with
    | none => (.error .checksumParseFailure, [.fetch checksum_url])
    | some tok => (.ok tok, [.fetch checksum_url])

/-- Embedding of `ClinVarDownloader.calculate_md5` (downloader.py lines
88-108): `FileNotFoundError` when the file is absent, otherwise the hash
of its content. -/
def calculate_md5 (md5 : String → String) (fs : FS) (filepath : String) :
    Except DlErr String :=
  match fs.lookup filepath with
  | none => .error .fileNotFound
  | some content => .ok (md5 content)

/-- Python `str.lower()`, character by character. -/
def lowerStr (s : String) : String :=
  String.mk (s.data.map Char.toLower)

/-- Embedding of `ClinVarDownloader.validate_checksum` (downloader.py
lines 135-161): recompute the hash, compare case-insensitively, raise on
mismatch, return `True` on match.  The comparison itself is recorded as
an event. -/
def validate_checksum (md5 : String → String) (fs : FS)
    (filepath expected : String) : Except DlErr Bool × List Ev :=
  match calculate_md5 md5 fs filepath with
  | .error e => (.error e, [])
  | .ok actual =>
    if lowerStr actual ≠ lowerStr expected then
      (.error .checksumMismatch, [.cmpChecksum filepath])
    else (.ok true, [.cmpChecksum filepath])

/-- `Path.with_suffix("")`: drop the last extension if there is one. -/
def stripLastExt (p : String) : String :=
  let r := p.data.reverse
  if r.any (fun c => c = '.') then
    String.mk ((r.dropWhile (fun c => c ≠ '.')).drop 1).reverse
  else p

/-- Embedding of `ClinVarDownloader.decompress_gzip` (downloader.py lines
163-185) with the default output path. -/
def decompress_gzip (gunzip : String → String) (fs : FS) (gz_filepath : String) :
    Except DlErr String × FS × List Ev :=
  let output_path := stripLastExt gz_filepath
  match fs.lookup gz_filepath with
  | none => (.error .fileNotFound, fs, [])
  | some content =>
    (.ok output_path, (output_path, gunzip content) :: fs, [.decompress gz_filepath])

/-- The source / checksum URL pair from configuration. -/
structure DlConfig where
  source_url : String
  checksum_url : String

/-- Embedding of `ClinVarDownloader.download_and_verify` (downloader.py
lines 187-215): download the data file (default 3 retries), download the
checksum, validate, decompress; each step's error aborts the workflow.
The unreachable case in which `download_file` returns Python `None` would
make `validate_checksum` blow up on a `None` path (`noneTypeError`). -/
def download_and_verify (md5 gunzip : String → String)
    (net : String → Option String) (cfg : DlConfig) (fs : FS) :
    Except DlErr String × FS × List Ev :=
  match download_file fs net cfg.source_url 3 with
  | (.error e, fs1, e1) => (.error e, fs1, e1)
  | (.ok none, fs1, e1) => (.error .noneTypeError, fs1, e1)
  | (.ok (some gz), fs1, e1) =>
    match download_checksum net cfg.checksum_url with
    | (.error e, e2) => (.error e, fs1, e1 ++ e2)
    | (.ok expected, e2) =>
      match validate_checksum md5 fs1 gz expected with
      | (.error e, e3) => (.error e, fs1, e1 ++ e2 ++ e3)
      | (.ok _, e3) =>
        match decompress_gzip gunzip fs1 gz with
        | (.error e, fs2, e4) => (.error e, fs2, e1 ++ e2 ++ e3 ++ e4)
        | (.ok out, fs2, e4) => (.ok out, fs2, e1 ++ e2 ++ e3 ++ e4)

/-! ## JSON values

`json.dump` writes a value tree and `json.load` reads it back; for the
report's field types (strings, ints, floats, flat dicts) the written text
parses back to an equal value, so serialization is modelled at the level
of value trees. -/

inductive Json where
  | str (s : String)
  | int (n : ℤ)
  | num (q : ℚ)
  | obj (fields : List (String × Json))

/-! ## Packager model (src/quilt_packager.py, `QuiltPackager`)

The local filesystem maps a path to whether it is a regular file; the
package registry interaction is reduced to its observable events.  A
quality report is a JSON object, as the packager receives the dict that
`json.load`/`generate_report` produced. -/

/-- Observable packaging events. -/
inductive PkgEv where
  /-- `quilt3.Package()` was constructed -/
  | createPackage
  /-- `pkg.set(name, file)` added the data file -/
  | addFile (name : String)
  /-- `pkg.set_meta(metadata)` attached the report metadata -/
  | setMeta
  /-- `pkg.push(...)` contacted the registry -/
  | push (name : String)
deriving DecidableEq

/-- Errors raised by the packager.  `missingRequiredFields` models the
`ValueError("Quality report missing required fields ...")` of
`validate_quality_report` (quilt_packager.py line 212), the condition the
spec's error taxonomy names `IncompleteReportError`. -/
inductive PkgErr where
  | fileNotFound
  | notAFile
  | missingRequiredFields
  | pushFailed
deriving DecidableEq

/-- The packager's view of the filesystem: path to is-regular-file. -/
abbrev PathFS := List (String × Bool)

/-- `Path.name`: the final path component. -/
def basename (p : String) : String :=
  String.mk (lastSlashComponent p.data)

/-- Embedding of `QuiltPackager.validate_data_file` (quilt_packager.py
lines 169-188): `FileNotFoundError` when absent, `ValueError` when not a
regular file. -/
def validate_data_file (files : PathFS) (data_file : String) :
    Except PkgErr Bool :=
  match files.lookup data_file with
  | none => .error .fileNotFound
  | some isFile => if isFile then .ok true else .error .notAFile

/-- Embedding of `QuiltPackager.validate_quality_report` (quilt_packager.py
lines 190-215): collect the required fields absent from the report dict
and raise when any is missing. -/
def validate_quality_report (report : List (String × Json)) :
    Except PkgErr Bool :=
  let required_fields := ["timestamp", "row_count", "column_count", "quality_score"]
  let missing_fields := required_fields.filter (fun f => (report.lookup f).isNone)
  if missing_fields ≠ [] then .error .missingRequiredFields else .ok true

/-- Embedding of `QuiltPackager.push_to_registry` (quilt_packager.py lines
136-167): a disabled push is a successful no-op; otherwise push and
propagate failure (`pushOk` says whether the registry accepts). -/
def push_to_registry (push_enabled : Bool) (package_name : String)
    (pushOk : Bool) : Except PkgErr Bool × List PkgEv :=
  if !push_enabled then (.ok true, [])
  else if pushOk then (.ok true, [.push package_name])
  else (.error .pushFailed, [.push package_name])

/-- Embedding of `QuiltPackager.full_package_workflow` (quilt_packager.py
lines 285-326): validate the data file, validate the report, create the
package, add the file (which re-checks existence), attach the report
metadata, push. -/
def full_package_workflow (files : PathFS) (push_enabled pushOk : Bool)
    (package_name data_file : String) (quality_report : List (String × Json)) :
    Except PkgErr Bool × List PkgEv :=
  match validate_data_file files data_file with
  | .error e => (.error e, [])
  | .ok _ =>
    match validate_quality_report quality_report with
    | .error e => (.error e, [])
    | .ok _ =>
      match files.lookup data_file with
      | none => (.error .fileNotFound, [PkgEv.createPackage])
      | some _ =>
        let evs := [PkgEv.createPackage, PkgEv.addFile (basename data_file),
          PkgEv.setMeta]
        match push_to_registry push_enabled package_name pushOk with
        | (.error e, pe) => (.error e, evs ++ pe)
        | (.ok _, pe) => (.ok true, evs ++ pe)

/-! ## Quality report persistence (src/quality_checker.py, `save_report`) -/

/-- The quality report produced by `QualityChecker.generate_report`
(src/quality_checker.py lines 239-254), with its exact fields. -/
structure Report where
  timestamp : String
  row_count : ℤ
  column_count : ℤ
  null_percentage_avg : ℚ
  duplicate_count : ℤ
  conflicting_count : ℤ
  four_star_percentage : ℚ
  clinical_significance_distribution : List (String × ℤ)
  review_status_distribution : List (String × ℤ)
  quality_score : ℚ
deriving DecidableEq

/-- A distribution dict as JSON. -/
def encodeIntMap (m : List (String × ℤ)) : List (String × Json) :=
  m.map (fun kv => (kv.1, .int kv.2))

/-- Read a distribution dict back from JSON. -/
def decodeIntMap : List (String × Json) → Option (List (String × ℤ))
  | [] => some []
  | (k, .int n) :: rest => (decodeIntMap rest).map (fun t => (k, n) :: t)
  | _ => none

/-- `json.dump(report, f)`: the JSON value written for a report, fields in
the dict's insertion order. -/
def encodeReport (r : Report) : Json :=
  .obj [("timestamp", .str r.timestamp), ("row_count", .int r.row_count),
    ("column_count", .int r.column_count),
    ("null_percentage_avg", .num r.null_percentage_avg),
    ("duplicate_count", .int r.duplicate_count),
    ("conflicting_count", .int r.conflicting_count),
    ("four_star_percentage", .num r.four_star_percentage),
    ("clinical_significance_distribution",
      .obj (encodeIntMap r.clinical_significance_distribution)),
    ("review_status_distribution", .obj (encodeIntMap r.review_status_distribution)),
    ("quality_score", .num r.quality_score)]

/-- Reading a saved report file back into a report. -/
def decodeReport : Json → Option Report
  | .obj [("timestamp", .str ts), ("row_count", .int rc), ("column_count", .int cc),
      ("null_percentage_avg", .num np), ("duplicate_count", .int dc),
      ("conflicting_count", .int cfc), ("four_star_percentage", .num fp),
      ("clinical_significance_distribution", .obj cd),
      ("review_status_distribution", .obj rd), ("quality_score", .num qs)] =>
    match decodeIntMap cd, decodeIntMap rd with
    | some c, some v => some ⟨ts, rc, cc, np, dc, cfc, fp, c, v, qs⟩
    | _, _ => none
  | _ => none

/-- `timestamp.replace(":", "-")` (single characters, so a character map). -/
def replColon (c : Char) : Char := if c = ':' then '-' else c

/-- `timestamp.replace(".", "-")`. -/
def replDot (c : Char) : Char := if c = '.' then '-' else c

/-- `timestamp.replace(":", "-").replace(".", "-").split("T")[0]`
(src/quality_checker.py line 279). -/
def timestamp_date_part (ts : String) : String :=
  String.mk (((ts.data.map replColon).map replDot).takeWhile (fun c => c ≠ 'T'))

/-- The filename `f"quality_report_{timestamp_str}.json"` built from the
report's own timestamp field. -/
def save_filename (r : Report) : String :=
  "quality_report_" ++ timestamp_date_part r.timestamp ++ ".json"

/-- Embedding of `QualityChecker.save_report` (src/quality_checker.py
lines 259-289): write the serialized report under the derived filename in
the output directory (the directory as a map from path to JSON content);
returns the path and the updated directory. -/
def save_report (output_dir : String) (fsj : List (String × Json)) (r : Report) :
    String × List (String × Json) :=
  let filepath := output_dir ++ "/" ++ save_filename r
  (filepath, (filepath, encodeReport r) :: fsj)

/-- A concrete report used as a witness input. -/
def rEx : Report :=
  ⟨"2025-06-01T12:00:00+00:00", 3, 2, 1.5, 0, 1, 33.3,
    [("Benign", 2)], [("4-star", 1), ("no-review", 2)], 87.5⟩

end ClinVar

namespace ClinVar

/-- C1: source score agrees with the spec formula pointwise. -/
theorem score_eq_spec_formula (r : ScoreInput) :
    calculate_quality_score r = spec_quality_score r := by
  unfold calculate_quality_score spec_quality_score
  rw [max_min_distrib_left]
  norm_num

/-- C2: the returned score is clamped into [0, 100] for every input,
however extreme. -/
theorem score_always_in_unit_interval (r : ScoreInput) :
    0 ≤ calculate_quality_score r ∧ calculate_quality_score r ≤ 100 := by
  unfold calculate_quality_score
  exact ⟨le_max_left 0 _, max_le (by norm_num) (min_le_left _ _)⟩

/-- C9: with all four inputs nonnegative the three penalties are capped at
30 + 25 + 20 and the bonus is nonnegative, so the score is at least 25 and
the lower clamp never binds; combined with the upper clamp the effective
range is [25, 100]. -/
theorem score_at_least_25_on_nonneg (r : ScoreInput)
    (_hn : 0 ≤ r.null_percentage_avg) (_hc : 0 ≤ r.conflicting_count)
    (hf : 0 ≤ r.four_star_percentage) (_hr : 0 ≤ r.row_count) :
    25 ≤ calculate_quality_score r ∧ calculate_quality_score r ≤ 100 := by
  simp only [calculate_quality_score]
  refine ⟨?_, max_le (by norm_num) (min_le_left _ _)⟩
  have hmin : ∀ x c : ℚ, min x c ≤ c := fun x c => min_le_right x c
  have h3 : (0 : ℚ) ≤ min (r.four_star_percentage * (0.25 : ℚ)) 25 :=
    le_min (mul_nonneg hf (by norm_num)) (by norm_num)
  refine le_trans (le_min (by norm_num) ?_) (le_max_right 0 _)
  have h1 := hmin (r.null_percentage_avg * (0.5 : ℚ)) 30
  have h2 := hmin ((if r.row_count > 0 then
      r.conflicting_count / (r.row_count : ℚ) * 100 else 0) * 2) 25
  have h4 := hmin ((100 - (r.row_count : ℚ)) * (0.2 : ℚ)) 20
  have he : ((0 : ℚ) * 2 ⊓ 25) = 0 := by rw [min_eq_left] <;> norm_num
  split_ifs at h2 ⊢ <;> (try rw [he] at h2 ⊢) <;> linarith

/-- Witness for C9 at a concrete report. -/
theorem score_at_least_25_witness :
    (0 : ℚ) ≤ 2 ∧ (0 : ℚ) ≤ 5 ∧ (0 : ℚ) ≤ 85 ∧ (0 : ℤ) ≤ 1000 ∧
    (25 ≤ calculate_quality_score ⟨2, 5, 85, 1000⟩ ∧
      calculate_quality_score ⟨2, 5, 85, 1000⟩ ≤ 100) :=
  ⟨by norm_num, by norm_num, by norm_num, by norm_num,
    score_at_least_25_on_nonneg ⟨2, 5, 85, 1000⟩
      (by norm_num) (by norm_num) (by norm_num) (by norm_num)⟩

/-! ### Rounding lemmas -/

theorem roundHalfEven_nonneg (x : ℚ) (h : 0 ≤ x) : 0 ≤ roundHalfEven x := by
  simp only [roundHalfEven]
  have hf : 0 ≤ ⌊x⌋ := Int.le_floor.mpr (by exact_mod_cast h)
  split_ifs <;> omega

theorem roundHalfEven_le (x : ℚ) (B : ℤ) (h : x ≤ B) : roundHalfEven x ≤ B := by
  simp only [roundHalfEven]
  have hfB : ⌊x⌋ ≤ B := by
    have h1 := Int.floor_le_floor h
    simpa using h1
  have hfl : (⌊x⌋ : ℚ) ≤ x := Int.floor_le x
  split_ifs with h1 h2 h3
  · exact hfB
  · have h4 : (⌊x⌋ : ℚ) < (B : ℚ) := by linarith
    have h5 : ⌊x⌋ < B := by exact_mod_cast h4
    omega
  · exact hfB
  · have hx : x - ⌊x⌋ = 1/2 := le_antisymm (not_lt.mp h2) (not_lt.mp h1)
    have h4 : (⌊x⌋ : ℚ) < (B : ℚ) := by linarith
    have h5 : ⌊x⌋ < B := by exact_mod_cast h4
    omega

theorem round2_nonneg (x : ℚ) (h : 0 ≤ x) : 0 ≤ round2 x := by
  have h1 : 0 ≤ roundHalfEven (x * 100) :=
    roundHalfEven_nonneg _ (mul_nonneg h (by norm_num))
  unfold round2
  positivity

theorem round2_le_100 (x : ℚ) (h : x ≤ 100) : round2 x ≤ 100 := by
  have h1 : roundHalfEven (x * 100) ≤ (10000 : ℤ) :=
    roundHalfEven_le _ 10000 (by push_cast; linarith)
  unfold round2
  rw [div_le_iff₀ (by norm_num : (0:ℚ) < 100)]
  exact_mod_cast h1

/-! ### Null-percentage lemmas -/

theorem nullCells_le_total (df : DataFrame) (h : Rect df) :
    nullCells df ≤ df.rows.length * df.columns.length := by
  unfold nullCells
  have key : ∀ rs : List (List (Option String)),
      (∀ r ∈ rs, r.length = df.columns.length) →
      (rs.map (fun r => r.countP (fun c => c.isNone))).sum ≤
        rs.length * df.columns.length := by
    intro rs hrs
    induction rs with
    | nil => simp
    | cons a t ih =>
      simp only [List.map_cons, List.sum_cons, List.length_cons]
      have h1 : a.countP (fun c => c.isNone) ≤ a.length := List.countP_le_length _
      have h2 := ih (fun r hr => hrs r (List.mem_cons_of_mem a hr))
      have h3 : a.length = df.columns.length := hrs a (List.mem_cons_self a t)
      rw [Nat.succ_mul]
      omega
  exact key df.rows h

/-- C5: the null percentage is 0 on an empty table, and on a non-empty
table equals the missing-cell ratio times 100, rounded to two decimals,
and lies in [0, 100]. -/
theorem null_percentage_spec (df : DataFrame) (h : Rect df) :
    (df.isEmpty = true → _calculate_null_percentage df = 0) ∧
    (df.isEmpty = false →
      _calculate_null_percentage df =
        round2 (((nullCells df : ℚ) /
          ((df.rows.length * df.columns.length : ℕ) : ℚ)) * 100) ∧
      0 ≤ _calculate_null_percentage df ∧ _calculate_null_percentage df ≤ 100) := by
  constructor
  · intro he
    simp [_calculate_null_percentage, he]
  · intro he
    have hrows : df.rows.length ≠ 0 := by
      intro h0
      simp [DataFrame.isEmpty] at he
      exact he.1 (List.length_eq_zero.mp h0)
    have hcols : df.columns.length ≠ 0 := by
      intro h0
      simp [DataFrame.isEmpty] at he
      exact he.2 (List.length_eq_zero.mp h0)
    have htot : 0 < df.rows.length * df.columns.length := Nat.pos_of_ne_zero (by
      intro h0
      rcases Nat.mul_eq_zero.mp h0 with h0 | h0
      · exact hrows h0
      · exact hcols h0)
    have heq : _calculate_null_percentage df =
        round2 (((nullCells df : ℚ) /
          ((df.rows.length * df.columns.length : ℕ) : ℚ)) * 100) := by
      simp only [_calculate_null_percentage, he]
      simp [htot]
    refine ⟨heq, ?_, ?_⟩
    · rw [heq]
      refine round2_nonneg _ (mul_nonneg (div_nonneg ?_ ?_) (by norm_num))
      · positivity
      · positivity
    · rw [heq]
      refine round2_le_100 _ ?_
      have hratio : (nullCells df : ℚ) /
          ((df.rows.length * df.columns.length : ℕ) : ℚ) ≤ 1 := by
        rw [div_le_one (by exact_mod_cast htot)]
        exact_mod_cast nullCells_le_total df h
      linarith

/-- Witness for C5: a concrete rectangular table with 3 missing cells out
of 4. -/
theorem null_percentage_witness :
    Rect exDfNull ∧
    ((exDfNull.isEmpty = true → _calculate_null_percentage exDfNull = 0) ∧
      (exDfNull.isEmpty = false →
        _calculate_null_percentage exDfNull =
          round2 (((nullCells exDfNull : ℚ) /
            ((exDfNull.rows.length * exDfNull.columns.length : ℕ) : ℚ)) * 100) ∧
        0 ≤ _calculate_null_percentage exDfNull ∧
        _calculate_null_percentage exDfNull ≤ 100)) :=
  ⟨by decide, null_percentage_spec exDfNull (by decide)⟩

/-! ### Review-status distribution lemmas -/

theorem mem_distinct (b : String) (xs : List String) : b ∈ distinct xs ↔ b ∈ xs := by
  induction xs with
  | nil => simp [distinct]
  | cons x t ih =>
    simp only [distinct]
    split_ifs with hx
    · rw [ih]
      constructor
      · exact fun h => List.mem_cons_of_mem x h
      · intro h
        rcases List.mem_cons.mp h with h | h
        · subst h; exact hx
        · exact h
    · simp [List.mem_cons, ih]

theorem lookup_keymap (keys : List String) (f : String → ℕ) (b : String) :
    List.lookup b (keys.map fun v => (v, f v)) =
      if b ∈ keys then some (f b) else none := by
  induction keys with
  | nil => simp
  | cons k t ih =>
    by_cases hb : b = k
    · subst hb
      simp [List.lookup]
    · have hbk : (b == k) = false := beq_eq_false_iff_ne.mpr hb
      simp [List.lookup, hbk, ih, hb]

theorem lookup_value_counts (xs : List String) (b : String) :
    List.lookup b (value_counts xs) =
      if b ∈ xs then some (xs.count b) else none := by
  unfold value_counts
  rw [lookup_keymap]
  simp [mem_distinct]

theorem data_append (a b : String) : (a ++ b).data = a.data ++ b.data := rfl

theorem extract_stars_ne_no_review (s : String) :
    extract_stars (some s) ≠ "no-review" := by
  intro h
  simp only [extract_stars] at h
  have hd : (toString (s.data.count '★')).data ++ "-star".data = "no-review".data := by
    rw [← data_append]
    exact congrArg String.data h
  have hrev := congrArg List.reverse hd
  rw [List.reverse_append] at hrev
  have h1 : ("-star".data.reverse ++
      (toString (s.data.count '★')).data.reverse).head? = some 'r' := rfl
  rw [hrev] at h1
  exact absurd h1 (by decide)

/-- C4: review-status bucketing.  When the column is absent the
distribution is empty; a missing cell buckets to `"no-review"`; a
non-missing cell buckets to `"{n}-star"` for its glyph count (so four
glyphs give `"4-star"`, zero glyphs give `"0-star"`, never
`"no-review"`); and the distribution maps each bucket to the number of
rows assigned to it. -/
theorem review_status_bucketing (df : DataFrame) :
    (df.columns.findIdx? (fun c => c == "ReviewStatus") = none →
      _calculate_review_status_distribution df = []) ∧
    extract_stars none = "no-review" ∧
    (∀ s : String, extract_stars (some s) = toString (s.data.count '★') ++ "-star") ∧
    (∀ s : String, s.data.count '★' = 4 → extract_stars (some s) = "4-star") ∧
    (∀ s : String, s.data.count '★' = 0 → extract_stars (some s) = "0-star") ∧
    (∀ s : String, extract_stars (some s) ≠ "no-review") ∧
    (∀ i b, df.columns.findIdx? (fun c => c == "ReviewStatus") = some i →
      List.lookup b (_calculate_review_status_distribution df) =
        if b ∈ review_buckets df i then some ((review_buckets df i).count b)
        else none) := by
  refine ⟨?_, rfl, fun s => rfl, ?_, ?_, extract_stars_ne_no_review, ?_⟩
  · intro h
    unfold _calculate_review_status_distribution
    rw [h]
  · intro s h
    simp only [extract_stars, h]
    rfl
  · intro s h
    simp only [extract_stars, h]
    rfl
  · intro i b h
    unfold _calculate_review_status_distribution
    rw [h]
    exact lookup_value_counts _ b

/-- Witness for C4: in the concrete table the four-glyph row is the only
`"4-star"` bucket. -/
theorem review_status_bucketing_witness :
    List.lookup "4-star" (_calculate_review_status_distribution exDfReview) = some 1 := by
  have h := (review_status_bucketing exDfReview).2.2.2.2.2.2 1 "4-star" (by decide)
  rw [h]
  decide

/-! ### Downloader lemmas -/

theorem downloadAttempts_events (net : String → Option String) (url : String) :
    ∀ n, ∀ e ∈ (downloadAttempts net url n).2, e = Ev.fetch url := by
  intro n
  induction n with
  | zero => intro e he; simp [downloadAttempts] at he
  | succ n ih =>
    intro e he
    simp only [downloadAttempts] at he
    cases hn : net url with
    | some c =>
      rw [hn] at he
      simpa using he
    | none =>
      rw [hn] at he
      split_ifs at he with h0
      · simpa using he
      · simp only [List.mem_cons] at he
        rcases he with he | he
        · exact he
        · exact ih e he

theorem download_file_events (fs : FS) (net : String → Option String)
    (url : String) (k : ℕ) :
    ∀ e ∈ (download_file fs net url k).2.2, e = Ev.fetch url := by
  intro e he
  simp only [download_file] at he
  cases hc : List.lookup (_get_filename_from_url url) fs with
  | some c => rw [hc] at he; simp at he
  | none =>
    rw [hc] at he
    have hev := downloadAttempts_events net url k
    rcases hda : downloadAttempts net url k with ⟨r, evs⟩
    rw [hda] at hev he
    cases r with
    | error err =>
      simp only [] at he
      exact hev e he
    | ok o =>
      cases o with
      | none =>
        simp only [] at he
        exact hev e he
      | some content =>
        simp only [] at he
        exact hev e he

theorem download_checksum_events (net : String → Option String) (u : String) :
    (download_checksum net u).2 = [Ev.fetch u] := by
  unfold download_checksum
  cases hn : net u with
  | none => rfl
  | some txt =>
    cases ht : firstToken txt with
    | none => simp [ht]
    | some tok => simp [ht]

/-- C10: with `max_retries = 0` and no cached file, the retry loop is
never entered, nothing is fetched, the directory is unchanged and the
function returns Python `None`. -/
theorem download_file_zero_retries (fs : FS) (net : String → Option String)
    (url : String)
    (h : List.lookup (_get_filename_from_url url) fs = none) :
    download_file fs net url 0 = (.ok none, fs, []) := by
  simp only [download_file]
  rw [h]
  rfl

/-- Witness for C10. -/
theorem download_file_zero_retries_witness :
    List.lookup (_get_filename_from_url "http://h/f.gz") ([] : FS) = none ∧
    download_file [] (fun _ => none) "http://h/f.gz" 0 = (.ok none, [], []) :=
  ⟨rfl, download_file_zero_retries [] (fun _ => none) "http://h/f.gz" rfl⟩

/-- C3 counterexample: with the archive already cached, the workflow
still performs a checksum comparison of that archive — the claim that no
such comparison happens is false at this input. -/
theorem cached_archive_no_revalidation_counterexample :
    (List.lookup (_get_filename_from_url "http://h/f.gz")
        [("f.gz", "DATA")]).isSome = true ∧
    Ev.cmpChecksum "f.gz" ∈
      (download_and_verify (fun _ => "abc") (fun c => c)
        (fun u => if u = "http://h/f.gz.md5" then some "abc  f.gz" else none)
        ⟨"http://h/f.gz", "http://h/f.gz.md5"⟩ [("f.gz", "DATA")]).2.2 :=
  ⟨rfl, by decide⟩

/-- C3 (amended): when the archive is already cached the workflow skips
re-downloading it (the download step returns the cached path with no
fetch of the source URL and no directory change), but it still
re-validates the cached archive's checksum before decompressing. -/
theorem cached_archive_skips_download_but_revalidates
    (md5 gunzip : String → String) (net : String → Option String)
    (cfg : DlConfig) (fs : FS) (content tok : String) (e2 : List Ev)
    (hcache : List.lookup (_get_filename_from_url cfg.source_url) fs = some content)
    (hck : download_checksum net cfg.checksum_url = (.ok tok, e2)) :
    download_file fs net cfg.source_url 3 =
      (.ok (some (_get_filename_from_url cfg.source_url)), fs, []) ∧
    Ev.cmpChecksum (_get_filename_from_url cfg.source_url) ∈
      (download_and_verify md5 gunzip net cfg fs).2.2 := by
  have hdl : download_file fs net cfg.source_url 3 =
      (.ok (some (_get_filename_from_url cfg.source_url)), fs, []) := by
    simp only [download_file]
    rw [hcache]
  refine ⟨hdl, ?_⟩
  by_cases hcmp : lowerStr (md5 content) = lowerStr tok
  · have hres : download_and_verify md5 gunzip net cfg fs =
        (.ok (stripLastExt (_get_filename_from_url cfg.source_url)),
          (stripLastExt (_get_filename_from_url cfg.source_url), gunzip content) :: fs,
          [] ++ e2 ++ [Ev.cmpChecksum (_get_filename_from_url cfg.source_url)] ++
            [Ev.decompress (_get_filename_from_url cfg.source_url)]) := by
      simp only [download_and_verify, hdl, hck, validate_checksum, calculate_md5,
        hcache, decompress_gzip, if_neg (not_not_intro hcmp)]
    rw [hres]
    simp
  · have hres : download_and_verify md5 gunzip net cfg fs =
        (.error .checksumMismatch, fs,
          [] ++ e2 ++ [Ev.cmpChecksum (_get_filename_from_url cfg.source_url)]) := by
      simp only [download_and_verify, hdl, hck, validate_checksum, calculate_md5,
        hcache, if_pos hcmp]
    rw [hres]
    simp

/-- Witness for the amended C3 at a concrete cached state. -/
theorem cached_archive_skips_download_witness :
    download_file [("f.gz", "DATA")]
        (fun u => if u = "http://h/f.gz.md5" then some "abc  f.gz" else none)
        "http://h/f.gz" 3 =
      (.ok (some (_get_filename_from_url "http://h/f.gz")), [("f.gz", "DATA")], []) ∧
    Ev.cmpChecksum (_get_filename_from_url "http://h/f.gz") ∈
      (download_and_verify (fun _ => "abc") (fun c => c)
        (fun u => if u = "http://h/f.gz.md5" then some "abc  f.gz" else none)
        ⟨"http://h/f.gz", "http://h/f.gz.md5"⟩ [("f.gz", "DATA")]).2.2 :=
  cached_archive_skips_download_but_revalidates (fun _ => "abc") (fun c => c)
    (fun u => if u = "http://h/f.gz.md5" then some "abc  f.gz" else none)
    ⟨"http://h/f.gz", "http://h/f.gz.md5"⟩ [("f.gz", "DATA")] "DATA" "abc"
    [Ev.fetch "http://h/f.gz.md5"] (by decide) rfl

/-- C6: whenever the recomputed hash of the downloaded archive differs
case-insensitively from the expected checksum, the workflow fails with
the checksum-mismatch error (the spec's `IntegrityError`) and no
decompression happens; whenever they agree, validation passes and the
archive is decompressed. -/
theorem checksum_mismatch_gate
    (md5 gunzip : String → String) (net : String → Option String)
    (cfg : DlConfig) (fs fs1 : FS) (gz tok content : String) (e1 e2 : List Ev)
    (hdl : download_file fs net cfg.source_url 3 = (.ok (some gz), fs1, e1))
    (hck : download_checksum net cfg.checksum_url = (.ok tok, e2))
    (hcontent : List.lookup gz fs1 = some content) :
    (lowerStr (md5 content) ≠ lowerStr tok →
      (download_and_verify md5 gunzip net cfg fs).1 = .error .checksumMismatch ∧
      ∀ f, Ev.decompress f ∉ (download_and_verify md5 gunzip net cfg fs).2.2) ∧
    (lowerStr (md5 content) = lowerStr tok →
      (download_and_verify md5 gunzip net cfg fs).1 = .ok (stripLastExt gz) ∧
      Ev.decompress gz ∈ (download_and_verify md5 gunzip net cfg fs).2.2) := by
  have he1 : ∀ e ∈ e1, e = Ev.fetch cfg.source_url := by
    have h := download_file_events fs net cfg.source_url 3
    rw [hdl] at h
    exact h
  have he2 : e2 = [Ev.fetch cfg.checksum_url] := by
    have h := download_checksum_events net cfg.checksum_url
    rw [hck] at h
    exact h
  constructor
  · intro hne
    have hres : download_and_verify md5 gunzip net cfg fs =
        (.error .checksumMismatch, fs1, e1 ++ e2 ++ [Ev.cmpChecksum gz]) := by
      simp only [download_and_verify, hdl, hck, validate_checksum, calculate_md5,
        hcontent, if_pos hne]
    rw [hres]
    refine ⟨rfl, ?_⟩
    intro f hf
    simp only [List.mem_append, List.mem_cons, List.not_mem_nil, or_false] at hf
    rcases hf with (hf | hf) | hf
    · exact Ev.noConfusion (he1 _ hf)
    · rw [he2] at hf
      simp only [List.mem_cons, List.not_mem_nil, or_false] at hf
      exact Ev.noConfusion hf
    · exact Ev.noConfusion hf
  · intro heq
    have hres : download_and_verify md5 gunzip net cfg fs =
        (.ok (stripLastExt gz), (stripLastExt gz, gunzip content) :: fs1,
          e1 ++ e2 ++ [Ev.cmpChecksum gz] ++ [Ev.decompress gz]) := by
      simp only [download_and_verify, hdl, hck, validate_checksum, calculate_md5,
        hcontent, decompress_gzip, if_neg (not_not_intro heq)]
    rw [hres]
    exact ⟨rfl, by simp⟩

/-- Witness for C6: a fresh download whose hash matches the expected
checksum up to case, so decompression runs. -/
theorem checksum_mismatch_gate_witness :
    ((lowerStr ((fun _ => "abc") "GZDATA") ≠ lowerStr "ABC" → False) ∧
      (download_and_verify (fun _ => "abc") (fun c => c)
          (fun u => if u = "http://h/d.gz.md5" then some "ABC  d.gz"
            else if u = "http://h/d.gz" then some "GZDATA" else none)
          ⟨"http://h/d.gz", "http://h/d.gz.md5"⟩ []).1 = .ok (stripLastExt "d.gz") ∧
      Ev.decompress "d.gz" ∈
        (download_and_verify (fun _ => "abc") (fun c => c)
          (fun u => if u = "http://h/d.gz.md5" then some "ABC  d.gz"
            else if u = "http://h/d.gz" then some "GZDATA" else none)
          ⟨"http://h/d.gz", "http://h/d.gz.md5"⟩ []).2.2) := by
  have h := (checksum_mismatch_gate (fun _ => "abc") (fun c => c)
    (fun u => if u = "http://h/d.gz.md5" then some "ABC  d.gz"
      else if u = "http://h/d.gz" then some "GZDATA" else none)
    ⟨"http://h/d.gz", "http://h/d.gz.md5"⟩ [] [("d.gz", "GZDATA")] "d.gz" "ABC"
    "GZDATA" [Ev.fetch "http://h/d.gz"] [Ev.fetch "http://h/d.gz.md5"]
    rfl rfl rfl).2 (by decide)
  exact ⟨fun hne => hne (by decide), h.1, h.2⟩

/-! ### Packager theorems -/

/-- C7: with a valid data file, a report missing any of the four required
scalar fields makes the publish workflow fail with the
missing-required-fields error (the spec's `IncompleteReportError`) with an
empty event trace, i.e. before any package creation or push; a report
carrying all four fields passes validation. -/
theorem publish_requires_quality_score
    (files : PathFS) (pe pok : Bool) (pkgname data_file : String)
    (report : List (String × Json))
    (hfile : validate_data_file files data_file = .ok true) :
    ((∃ f ∈ ["timestamp", "row_count", "column_count", "quality_score"],
        List.lookup f report = none) →
      full_package_workflow files pe pok pkgname data_file report =
        (.error .missingRequiredFields, [])) ∧
    ((∀ f ∈ ["timestamp", "row_count", "column_count", "quality_score"],
        (List.lookup f report).isSome) →
      validate_quality_report report = .ok true) := by
  constructor
  · rintro ⟨f, hf, hnone⟩
    have hmem : f ∈ (["timestamp", "row_count", "column_count",
        "quality_score"]).filter (fun f => (report.lookup f).isNone) :=
      List.mem_filter.mpr ⟨hf, by simp [hnone]⟩
    have hval : validate_quality_report report = .error .missingRequiredFields := by
      simp only [validate_quality_report]
      rw [if_pos (List.ne_nil_of_mem hmem)]
    simp only [full_package_workflow, hfile, hval]
  · intro hall
    have hfil : (["timestamp", "row_count", "column_count",
        "quality_score"]).filter (fun f => (report.lookup f).isNone) = [] := by
      rw [List.filter_eq_nil_iff]
      intro f hf
      rcases hl : List.lookup f report with _ | v
      · have h := hall f hf
        rw [hl] at h
        simp at h
      · simp [hl]
    simp only [validate_quality_report, hfil]
    rfl

/-- Witness for C7: a report lacking `quality_score` aborts the workflow
before any package event. -/
theorem publish_requires_quality_score_witness :
    full_package_workflow [("data.txt", true)] false false "biodata/clinvar"
        "data.txt"
        [("timestamp", Json.str "2025-06-01T12:00:00+00:00"),
          ("row_count", Json.int 5), ("column_count", Json.int 2)] =
      (.error .missingRequiredFields, []) := by
  have h := (publish_requires_quality_score [("data.txt", true)] false false
    "biodata/clinvar" "data.txt"
    [("timestamp", Json.str "2025-06-01T12:00:00+00:00"),
      ("row_count", Json.int 5), ("column_count", Json.int 2)] rfl).1
  exact h ⟨"quality_score", by simp, rfl⟩

/-! ### Report persistence theorems -/

theorem decodeIntMap_encodeIntMap (m : List (String × ℤ)) :
    decodeIntMap (encodeIntMap m) = some m := by
  induction m with
  | nil => rfl
  | cons kv t ih =>
    rcases kv with ⟨k, v⟩
    simp [encodeIntMap, decodeIntMap, ih]
    simpa [encodeIntMap] using ih

theorem decodeReport_obj (ts : String) (rc cc dc cfc : ℤ) (np fp qs : ℚ)
    (cd rd : List (String × Json)) :
    decodeReport (.obj [("timestamp", .str ts), ("row_count", .int rc),
        ("column_count", .int cc), ("null_percentage_avg", .num np),
        ("duplicate_count", .int dc), ("conflicting_count", .int cfc),
        ("four_star_percentage", .num fp),
        ("clinical_significance_distribution", .obj cd),
        ("review_status_distribution", .obj rd), ("quality_score", .num qs)]) =
      (match decodeIntMap cd, decodeIntMap rd with
        | some c, some v => some ⟨ts, rc, cc, np, dc, cfc, fp, c, v, qs⟩
        | _, _ => none) := rfl

theorem decode_encode_report (r : Report) :
    decodeReport (encodeReport r) = some r := by
  rw [encodeReport, decodeReport_obj, decodeIntMap_encodeIntMap,
    decodeIntMap_encodeIntMap]

theorem map_noop {f : Char → Char} (l : List Char) (h : ∀ c ∈ l, f c = c) :
    l.map f = l := by
  induction l with
  | nil => rfl
  | cons a t ih =>
    simp only [List.map_cons]
    rw [h a (List.mem_cons_self a t), ih (fun c hc => h c (List.mem_cons_of_mem a hc))]

theorem takeWhile_append_stop (p : Char → Bool) (d : List Char) (x : Char)
    (rest : List Char) (hall : ∀ c ∈ d, p c = true) (hx : p x = false) :
    (d ++ x :: rest).takeWhile p = d := by
  induction d with
  | nil => simp [List.takeWhile_cons, hx]
  | cons a t ih =>
    have ha : p a = true := hall a (List.mem_cons_self a t)
    simp only [List.cons_append, List.takeWhile_cons, ha]
    rw [ih (fun c hc => hall c (List.mem_cons_of_mem a hc))]
    simp

/-- C8: saving a report and reloading the written JSON file gives back a
field-for-field equal report, and the file path is
`<directory>/quality_report_<date>.json` with the date taken from the
report's own timestamp field. -/
theorem save_report_roundtrip (r : Report) (dir : String)
    (fsj : List (String × Json)) (d rest : List Char)
    (h1 : r.timestamp.data = d ++ 'T' :: rest)
    (h2 : ∀ c ∈ d, c ≠ 'T' ∧ c ≠ ':' ∧ c ≠ '.') :
    (List.lookup (save_report dir fsj r).1 (save_report dir fsj r).2).bind
        decodeReport = some r ∧
    (save_report dir fsj r).1 =
      dir ++ "/" ++ ("quality_report_" ++ String.mk d ++ ".json") := by
  constructor
  · have hl : List.lookup (save_report dir fsj r).1 (save_report dir fsj r).2 =
        some (encodeReport r) := by
      simp [save_report, List.lookup]
    rw [hl]
    simpa using decode_encode_report r
  · have hdc : d.map replColon = d :=
      map_noop d (fun c hc => if_neg (h2 c hc).2.1)
    have hdd : d.map replDot = d :=
      map_noop d (fun c hc => if_neg (h2 c hc).2.2)
    have key : ((r.timestamp.data.map replColon).map replDot).takeWhile
        (fun c => c ≠ 'T') = d := by
      rw [h1, List.map_append, List.map_cons, List.map_append, List.map_cons]
      rw [show replDot (replColon 'T') = 'T' from rfl]
      rw [hdc, hdd]
      refine takeWhile_append_stop _ d 'T' _ (fun c hc => ?_) (by simp)
      simpa using (h2 c hc).1
    simp only [save_report, save_filename, timestamp_date_part, key]

/-- Witness for C8 at a concrete report and directory. -/
theorem save_report_roundtrip_witness :
    (List.lookup (save_report "reports" [] rEx).1 (save_report "reports" [] rEx).2).bind
        decodeReport = some rEx ∧
    (save_report "reports" [] rEx).1 =
      "reports" ++ "/" ++ ("quality_report_" ++ String.mk "2025-06-01".data ++ ".json") :=
  save_report_roundtrip rEx "reports" [] "2025-06-01".data "12:00:00+00:00".data
    rfl (by decide)

end ClinVar
